import Mathlib

/-!
Verification of the AI Utility Hub repository (Express backend `server.js`
proxying Gemini, React frontend `App.js`).  The development shallowly embeds
the JavaScript code that the specification's claims are about:

* a `JValue` type for JSON values (numbers are kept as their source lexeme,
  so no floating point enters the model);
* a model of `JSON.parse` (fuel-based recursive descent over the character
  list, RFC 8259 grammar);
* JavaScript truthiness, property access, optional chaining and `trim`;
* the Markdown code-fence stripping and parse step of the JSON-producing
  `callLLM` variant in `App.js`;
* the plain-text `callLLM` of `ai-utility-backend/server.js`;
* the four Express endpoint handlers of `server.js`, as pure functions of
  the parsed request body and the single outcome of the one upstream call;
* the Output Normalizer `normalize`, which exists only in the specification
  (no such routine is in `src/`), modelled from the spec's words.

Strings are modelled at the level of Unicode scalar values (Lean `Char`);
JavaScript indexes strings by UTF-16 code units, which coincides with the
model on the inputs the claims are about.
-/

namespace AIUtil

/-- A JSON value.  Numbers carry their validated source lexeme so that no
floating-point arithmetic is needed in the model. -/
inductive JValue where
  | jnull
  | jbool (b : Bool)
  | jnum (lit : String)
  | jstr (s : String)
  | jarr (elems : List JValue)
  | jobj (fields : List (String × JValue))

/-- JSON whitespace accepted by `JSON.parse`: space, tab, line feed, carriage
return. -/
def isJsonWs (c : Char) : Bool :=
  c = ' ' || c = '\t' || c = '\n' || c = '\r'

/-- The whitespace class of JavaScript regular expressions and
`String.prototype.trim` (`\s`, WhiteSpace and LineTerminator). -/
def isJsWs (c : Char) : Bool :=
  c = ' ' || c = '\t' || c = '\n' || c = '\r' ||
  c.val = 0x0b || c.val = 0x0c || c.val = 0xa0 || c.val = 0x1680 ||
  (0x2000 ≤ c.val && c.val ≤ 0x200a) ||
  c.val = 0x2028 || c.val = 0x2029 || c.val = 0x202f ||
  c.val = 0x205f || c.val = 0x3000 || c.val = 0xfeff

/-- Model of `String.prototype.trim`: remove leading and trailing `\s`. -/
def jsTrim (s : String) : String :=
  String.mk (((s.data.dropWhile isJsWs).reverse.dropWhile isJsWs).reverse)

def isDigitCh (c : Char) : Bool :=
  48 ≤ c.toNat && c.toNat ≤ 57

def hexDigitVal (c : Char) : Option Nat :=
  let n := c.toNat
  if 48 ≤ n && n ≤ 57 then some (n - 48)
  else if 97 ≤ n && n ≤ 102 then some (n - 87)
  else if 65 ≤ n && n ≤ 70 then some (n - 55)
  else none

/-- Decode a single-character escape of a JSON string. -/
def jsonUnescape : Char → Option Char
  | '"' => some '"'
  | '\\' => some '\\'
  | '/' => some '/'
  | 'b' => some (Char.ofNat 8)
  | 'f' => some (Char.ofNat 12)
  | 'n' => some '\n'
  | 'r' => some '\r'
  | 't' => some '\t'
  | _ => none

/-- Body of a JSON string after the opening quote: decoded characters up to
the closing quote.  Unescaped control characters are refused, as
`JSON.parse` refuses them.  (A `\uXXXX` escape is decoded through
`Char.ofNat`; lone UTF-16 surrogates, which a JavaScript string can carry
but a sequence of Unicode scalar values cannot, are outside the model.) -/
def parseStrBody (acc : List Char) : List Char → Option (String × List Char)
  | '"' :: rest => some (String.mk acc.reverse, rest)
  | '\\' :: 'u' :: h1 :: h2 :: h3 :: h4 :: rest =>
    match hexDigitVal h1, hexDigitVal h2, hexDigitVal h3, hexDigitVal h4 with
    | some v1, some v2, some v3, some v4 =>
      parseStrBody (Char.ofNat (((v1 * 16 + v2) * 16 + v3) * 16 + v4) :: acc) rest
    | _, _, _, _ => none
  | '\\' :: e :: rest =>
    match jsonUnescape e with
    | some ch => parseStrBody (ch :: acc) rest
    | none => none
  | c :: rest => if c.val < 0x20 then none else parseStrBody (c :: acc) rest
  | [] => none

def spanDigits (cs : List Char) : List Char × List Char :=
  (cs.takeWhile isDigitCh, cs.dropWhile isDigitCh)

/-- A JSON number lexeme: `-?(0|[1-9][0-9]*)(\.[0-9]+)?([eE][+-]?[0-9]+)?`.
Returns the lexeme together with the rest of the input. -/
def parseNumLex (cs : List Char) : Option (String × List Char) :=
  let (sign, cs1) := match cs with
    | '-' :: r => (['-'], r)
    | _ => (([] : List Char), cs)
  let (intDs, cs2) := spanDigits cs1
  match intDs with
  | [] => none
  | d0 :: drest =>
    if d0 = '0' && drest ≠ [] then none
    else
      let (fracDs, cs3) : List Char × List Char := match cs2 with
        | '.' :: r =>
          let (ds, r2) := spanDigits r
          if ds = [] then ([], '.' :: r) else ('.' :: ds, r2)
        | _ => ([], cs2)
      match cs2, fracDs with
      | '.' :: _, [] => none
      | _, _ =>
        let (expDs, cs4) : List Char × List Char := match cs3 with
          | 'e' :: r | 'E' :: r =>
            let (sgn, r1) : List Char × List Char := match r with
              | '+' :: r2 => (['+'], r2)
              | '-' :: r2 => (['-'], r2)
              | _ => ([], r)
            let (ds, r2) := spanDigits r1
            if ds = [] then ([], cs3)
            else ((cs3.head?.toList) ++ sgn ++ ds, r2)
          | _ => ([], cs3)
        match cs3, expDs with
        | 'e' :: _, [] => none
        | 'E' :: _, [] => none
        | _, _ => some (String.mk (sign ++ intDs ++ fracDs ++ expDs), cs4)

mutual

/-- One JSON value at the head of the input (leading whitespace allowed),
structurally recursive on `fuel`. -/
def parseJVal (fuel : Nat) (cs : List Char) : Option (JValue × List Char) :=
  match fuel with
  | 0 => none
  | fuel + 1 =>
    match cs.dropWhile isJsonWs with
    | 'n' :: 'u' :: 'l' :: 'l' :: r => some (.jnull, r)
    | 't' :: 'r' :: 'u' :: 'e' :: r => some (.jbool true, r)
    | 'f' :: 'a' :: 'l' :: 's' :: 'e' :: r => some (.jbool false, r)
    | '"' :: r =>
      match parseStrBody [] r with
      | some (s, r2) => some (.jstr s, r2)
      | none => none
    | '[' :: r =>
      match r.dropWhile isJsonWs with
      | ']' :: r2 => some (.jarr [], r2)
      | r2 =>
        match parseJElems fuel r2 with
        | some (es, r3) => some (.jarr es, r3)
        | none => none
    | '{' :: r =>
      match r.dropWhile isJsonWs with
      | '}' :: r2 => some (.jobj [], r2)
      | r2 =>
        match parseJMembers fuel r2 with
        | some (ms, r3) => some (.jobj ms, r3)
        | none => none
    | c :: rest =>
      if c = '-' || isDigitCh c then
        match parseNumLex (c :: rest) with
        | some (lit, r2) => some (.jnum lit, r2)
        | none => none
      else none
    | [] => none

/-- One or more comma-separated array elements, then the closing bracket. -/
def parseJElems (fuel : Nat) (cs : List Char) : Option (List JValue × List Char) :=
  match fuel with
  | 0 => none
  | fuel + 1 =>
    match parseJVal fuel cs with
    | none => none
    | some (v, r) =>
      match r.dropWhile isJsonWs with
      | ',' :: r2 =>
        match parseJElems fuel r2 with
        | some (vs, r3) => some (v :: vs, r3)
        | none => none
      | ']' :: r2 => some ([v], r2)
      | _ => none

/-- One or more comma-separated object members, then the closing brace. -/
def parseJMembers (fuel : Nat) (cs : List Char) :
    Option (List (String × JValue) × List Char) :=
  match fuel with
  | 0 => none
  | fuel + 1 =>
    match cs.dropWhile isJsonWs with
    | '"' :: r =>
      match parseStrBody [] r with
      | none => none
      | some (key, r1) =>
        match r1.dropWhile isJsonWs with
        | ':' :: r2 =>
          match parseJVal fuel r2 with
          | none => none
          | some (v, r3) =>
            match r3.dropWhile isJsonWs with
            | ',' :: r4 =>
              match parseJMembers fuel r4 with
              | some (ms, r5) => some ((key, v) :: ms, r5)
              | none => none
            | '}' :: r4 => some ([(key, v)], r4)
            | _ => none
        | _ => none
    | _ => none

end

/-- Model of `JSON.parse`: one complete JSON value, possibly surrounded by
whitespace, and nothing else.  `none` is the thrown `SyntaxError`. -/
def jsonParse (s : String) : Option JValue :=
  match parseJVal (2 * s.data.length + 2) s.data with
  | some (v, rest) => if rest.dropWhile isJsonWs = [] then some v else none
  | none => none

/-- Whether a JSON number lexeme denotes zero: every digit of the mantissa
(integer and fraction part, the sign and exponent being irrelevant) is `0`.
`JSON.parse` can produce `NaN` from no lexeme, so this is exactly the
falsiness test for a parsed number. -/
def numLitIsZero (lit : String) : Bool :=
  ((lit.data.takeWhile fun c => c ≠ 'e' ∧ c ≠ 'E').filter isDigitCh).all (· = '0')

/-- JavaScript truthiness of a JSON value: `null`, `false`, `0` and `""` are
falsy; every object and array (even empty) is truthy. -/
def jsTruthy : JValue → Bool
  | .jnull => false
  | .jbool b => b
  | .jnum lit => !numLitIsZero lit
  | .jstr s => !s.isEmpty
  | .jarr _ => true
  | .jobj _ => true

/-- Truthiness lifted to a possibly-`undefined` value (`none` is falsy). -/
def optTruthy : Option JValue → Bool
  | some v => jsTruthy v
  | none => false

/-- Decimal digits to the number they spell, accumulator style. -/
def digitsToNat (acc : Nat) : List Char → Nat
  | [] => acc
  | c :: cs => digitsToNat (10 * acc + (c.toNat - 48)) cs

/-- The canonical array-index reading of a property key: a non-empty digit
string without a superfluous leading zero. -/
def toArrayIndex (k : String) : Option Nat :=
  match k.data with
  | [] => none
  | d0 :: rest =>
    if (d0 :: rest).all isDigitCh && (d0 ≠ '0' || rest = []) then
      some (digitsToNat 0 (d0 :: rest))
    else none

/-- The value of the last binding of `k`, as assignment order makes the last
duplicate key of a JavaScript object literal win. -/
def lookupField (fields : List (String × JValue)) (k : String) : Option JValue :=
  (fields.filter fun p => p.1 = k).getLast?.map Prod.snd

/-- JavaScript property access `v[k]` on a non-null value, `none` standing
for `undefined`: object fields, array elements and `length`, string
characters and `length`.  (Access on `null` throws instead; callers model
that case separately.) -/
def jsGet : JValue → String → Option JValue
  | .jobj fields, k => lookupField fields k
  | .jarr xs, k =>
    if k = "length" then some (.jnum (toString xs.length))
    else match toArrayIndex k with
      | some i => xs.get? i
      | none => none
  | .jstr s, k =>
    if k = "length" then some (.jnum (toString s.data.length))
    else match toArrayIndex k with
      | some i => (s.data.get? i).map fun c => .jstr (String.mk [c])
      | none => none
  | _, _ => none

/-- Optional chaining `o?.[k]` after a possibly-absent step: `undefined` and
`null` short-circuit to `undefined`. -/
def optChain (o : Option JValue) (k : String) : Option JValue :=
  match o with
  | some .jnull => none
  | some v => jsGet v k
  | none => none

/-- Escape one character for a JSON string literal, as `JSON.stringify`
does. -/
def stringifyChar (c : Char) : List Char :=
  if c = '"' then ['\\', '"']
  else if c = '\\' then ['\\', '\\']
  else if c = '\n' then ['\\', 'n']
  else if c = '\r' then ['\\', 'r']
  else if c = '\t' then ['\\', 't']
  else if c.val = 8 then ['\\', 'b']
  else if c.val = 12 then ['\\', 'f']
  else if c.val < 0x20 then
    '\\' :: 'u' :: '0' :: '0' ::
      (Nat.toDigits 16 c.toNat).reverse.take 2 |>.reverse
  else [c]

def stringifyStr (s : String) : String :=
  String.mk ('"' :: (s.data.flatMap stringifyChar) ++ ['"'])

mutual

/-- Model of `JSON.stringify` on parsed JSON values (no `undefined`, no
functions), used for the spec's "stringified dump" fallback. -/
def stringify : JValue → String
  | .jnull => "null"
  | .jbool true => "true"
  | .jbool false => "false"
  | .jnum lit => lit
  | .jstr s => stringifyStr s
  | .jarr es => "[" ++ stringifyList es ++ "]"
  | .jobj ms => "\x7b" ++ stringifyFields ms ++ "\x7d"

def stringifyList : List JValue → String
  | [] => ""
  | [v] => stringify v
  | v :: vs => stringify v ++ "," ++ stringifyList vs

def stringifyFields : List (String × JValue) → String
  | [] => ""
  | [(k, v)] => stringifyStr k ++ ":" ++ stringify v
  | (k, v) :: ms => stringifyStr k ++ ":" ++ stringify v ++ "," ++ stringifyFields ms

end

/-- Model of JavaScript `s.slice(0, n)` on a string: the first `n`
characters. -/
def jsSlice (s : String) (n : Nat) : String :=
  String.mk (s.data.take n)

/-- Whether a value is JSON `null` (property access on it throws). -/
def isNullJ : JValue → Bool
  | .jnull => true
  | _ => false

/-- The outcome of the single `axios.post` to the Gemini endpoint, as the
upstream environment resolves it: an HTTP success carrying `resp.data`, an
HTTP failure carrying `err.response.status` and `err.response.data`, or a
network/timeout failure carrying only `err.message`. -/
inductive AxiosOutcome where
  | success (respData : JValue)
  | httpFailure (status : Nat) (respData : JValue)
  | networkFailure (message : String)

/-- The extraction both `callLLM` variants share, line for line:
`const candidates = resp.data.candidates || [];`
`const text = candidates[0]?.content?.parts?.[0]?.text || '';`
The `Except` error is the `TypeError` thrown when `resp.data` is `null`. -/
def geminiTextV (respData : JValue) : Except Unit JValue :=
  if isNullJ respData then .error ()
  else
    let candidates : JValue :=
      match jsGet respData "candidates" with
      | some v => if jsTruthy v then v else .jarr []
      | none => .jarr []
    let t : Option JValue :=
      optChain (optChain (optChain (optChain (jsGet candidates "0")
        "content") "parts") "0") "text"
    .ok (match t with
      | some v => if jsTruthy v then v else .jstr ""
      | none => .jstr "")

def tick : Char := Char.ofNat 96

/-- Three backtick characters at the head of the input, or no match. -/
def dropTicks3 : List Char → Option (List Char)
  | a :: b :: c :: r => if a = tick && b = tick && c = tick then some r else none
  | _ => none

/-- The first replace of the fence-stripping chain, an anchored
case-insensitive match of three backticks, the tag `json` and any run of
whitespace; no match leaves the string unchanged. -/
def stripFenceJsonOpen (s : String) : String :=
  match dropTicks3 s.data with
  | some (c1 :: c2 :: c3 :: c4 :: r) =>
    if c1.toLower = 'j' && c2.toLower = 's' && c3.toLower = 'o' && c4.toLower = 'n' then
      String.mk (r.dropWhile isJsWs)
    else s
  | _ => s

/-- The second replace: an anchored match of three backticks and any run of
whitespace. -/
def stripFenceOpen (s : String) : String :=
  match dropTicks3 s.data with
  | some r => String.mk (r.dropWhile isJsWs)
  | none => s

/-- The third replace, anchored at the end: it fires exactly when the string
stripped of trailing whitespace ends in three backticks, and removes those
backticks together with the whitespace after them. -/
def stripFenceClose (s : String) : String :=
  match dropTicks3 (s.data.reverse.dropWhile isJsWs) with
  | some r => String.mk r.reverse
  | none => s

/-- The `cleaned` intermediate of the JSON-producing `callLLM`: the three
replaces followed by `trim`. -/
def fenceClean (s : String) : String :=
  jsTrim (stripFenceClose (stripFenceOpen (stripFenceJsonOpen s)))

namespace Frontend

/-- Result of the frontend `callLLM`: on success, `data` is the parsed JSON
value or the raw text (itself a JSON string value here). -/
inductive CallResult where
  | ok (data : JValue)
  | err (error : JValue)

/-- The parse step of the JSON-producing `callLLM` variant: decode the
fence-stripped text, and on a thrown `SyntaxError` substitute the original
raw text. -/
def parseLLMText (s : String) : JValue :=
  match jsonParse (fenceClean s) with
  | some v => v
  | none => .jstr s

/-- The JSON-producing `callLLM` variant of `App.js`.  When the extracted
`text` is a truthy non-string, `text.replace` throws inside the inner
`try`, whose `catch` also substitutes `text`. -/
def callLLM : AxiosOutcome → CallResult
  | .success d =>
    match geminiTextV d with
    | .ok (.jstr s) => .ok (parseLLMText s)
    | .ok v => .ok v
    | .error _ =>
      .err (.jobj [("message", .jstr "Cannot read properties of null (reading 'candidates')")])
  | .httpFailure st d =>
    .err (.jobj [("status", .jnum (toString st)), ("data", d)])
  | .networkFailure msg =>
    .err (.jobj [("message", .jstr msg)])

end Frontend

namespace Backend

/-- Result of the backend `callLLM`: on success, `data` is the trimmed
extracted text. -/
inductive CallResult where
  | ok (data : String)
  | err (error : JValue)

/-- The plain-text `callLLM` of `ai-utility-backend/server.js`.  A truthy
non-string `text` makes `text.trim()` throw inside the `try`; the `catch`
sees no `err.response` and reports `err.message`. -/
def callLLM : AxiosOutcome → CallResult
  | .success d =>
    match geminiTextV d with
    | .ok (.jstr s) => .ok (jsTrim s)
    | .ok _ => .err (.jobj [("message", .jstr "text.trim is not a function")])
    | .error _ =>
      .err (.jobj [("message", .jstr "Cannot read properties of null (reading 'candidates')")])
  | .httpFailure st d =>
    .err (.jobj [("status", .jnum (toString st)), ("data", d)])
  | .networkFailure msg =>
    .err (.jobj [("message", .jstr msg)])

/-- The `timeout` field of the axios request config, in milliseconds. -/
def axiosTimeoutMs : Nat := 30000

/-- An HTTP response as an Express handler produces it: the status code
(`res.json` alone leaves 200) and the JSON body. -/
structure HttpResp where
  status : Nat
  body : JValue

/-- Model of `req.body || ` empty object: `express.json()` yields the parsed
body, and a falsy one (for example JSON `null`) is replaced. -/
def bodyOr (reqBody : JValue) : JValue :=
  if jsTruthy reqBody then reqBody else .jobj []

/-- Object-literal fields whose value is `undefined`, which `res.json`
(through `JSON.stringify`) drops from the serialized body. -/
def dropAbsent (fields : List (String × Option JValue)) : List (String × JValue) :=
  fields.filterMap fun p => p.2.map fun v => (p.1, v)

/-- Handler of `POST /api/summarize`, as a pure function of the parsed
request body and of the outcome of its single `callLLM` await. -/
def apiSummarize (reqBody : JValue) (llm : CallResult) : HttpResp :=
  let text := jsGet (bodyOr reqBody) "text"
  if !optTruthy text then
    ⟨400, .jobj [("success", .jbool false), ("error", .jstr "text is required")]⟩
  else match llm with
    | .err e =>
      ⟨502, .jobj [("success", .jbool false), ("service", .jstr "summarize"), ("error", e)]⟩
    | .ok d =>
      ⟨200, .jobj [("success", .jbool true), ("service", .jstr "summarize"),
        ("input", .jobj [("text", text.getD .jnull)]), ("output", .jstr d)]⟩

/-- Handler of `POST /api/email`.  The echoed `input` carries the four
destructured fields verbatim; absent ones are `undefined` and vanish from
the serialized JSON. -/
def apiEmail (reqBody : JValue) (llm : CallResult) : HttpResp :=
  let b := bodyOr reqBody
  let recipientRole := jsGet b "recipientRole"
  let tone := jsGet b "tone"
  let purpose := jsGet b "purpose"
  let details := jsGet b "details"
  if !optTruthy details then
    ⟨400, .jobj [("success", .jbool false), ("error", .jstr "details is required")]⟩
  else match llm with
    | .err e =>
      ⟨502, .jobj [("success", .jbool false), ("service", .jstr "email"), ("error", e)]⟩
    | .ok d =>
      ⟨200, .jobj [("success", .jbool true), ("service", .jstr "email"),
        ("input", .jobj (dropAbsent [("recipientRole", recipientRole), ("tone", tone),
          ("purpose", purpose), ("details", details)])), ("output", .jstr d)]⟩

/-- Handler of `POST /api/explain-code`.  In the success branch the code is
echoed as `code.slice(0, 500)` with a truncation marker when longer; on a
truthy non-string `code`, `code.slice` throws out of the handler (the
`Except` error). -/
def apiExplainCode (reqBody : JValue) (llm : CallResult) : Except Unit HttpResp :=
  let code := jsGet (bodyOr reqBody) "code"
  if !optTruthy code then
    .ok ⟨400, .jobj [("success", .jbool false), ("error", .jstr "code is required")]⟩
  else match llm with
    | .err e =>
      .ok ⟨502, .jobj [("success", .jbool false), ("service", .jstr "explain-code"), ("error", e)]⟩
    | .ok d =>
      match code with
      | some (.jstr s) =>
        .ok ⟨200, .jobj [("success", .jbool true), ("service", .jstr "explain-code"),
          ("input", .jobj [("code", .jstr (jsSlice s 500 ++
            (if s.data.length > 500 then "...[truncated]" else "")))]),
          ("output", .jstr d)]⟩
      | _ => .error ()

/-- Handler of `POST /api/rewrite`.  The echoed `input` lists `tone` first
and truncates `text` to 500 characters with no marker; a truthy non-string
`text` makes `text.slice` throw. -/
def apiRewrite (reqBody : JValue) (llm : CallResult) : Except Unit HttpResp :=
  let b := bodyOr reqBody
  let text := jsGet b "text"
  let tone := jsGet b "tone"
  if !optTruthy text || !optTruthy tone then
    .ok ⟨400, .jobj [("success", .jbool false), ("error", .jstr "text and tone are required")]⟩
  else match llm with
    | .err e =>
      .ok ⟨502, .jobj [("success", .jbool false), ("service", .jstr "rewrite"), ("error", e)]⟩
    | .ok d =>
      match text with
      | some (.jstr s) =>
        .ok ⟨200, .jobj [("success", .jbool true), ("service", .jstr "rewrite"),
          ("input", .jobj [("tone", tone.getD .jnull), ("text", .jstr (jsSlice s 500))]),
          ("output", .jstr d)]⟩
      | _ => .error ()

/-- The summarize endpoint end to end: the handler applied to the result of
the one upstream call (no retry exists to model). -/
def apiSummarizeFull (reqBody : JValue) (outcome : AxiosOutcome) : HttpResp :=
  apiSummarize reqBody (callLLM outcome)

/-- The email endpoint end to end. -/
def apiEmailFull (reqBody : JValue) (outcome : AxiosOutcome) : HttpResp :=
  apiEmail reqBody (callLLM outcome)

/-- The explain-code endpoint end to end. -/
def apiExplainCodeFull (reqBody : JValue) (outcome : AxiosOutcome) : Except Unit HttpResp :=
  apiExplainCode reqBody (callLLM outcome)

/-- The rewrite endpoint end to end. -/
def apiRewriteFull (reqBody : JValue) (outcome : AxiosOutcome) : Except Unit HttpResp :=
  apiRewrite reqBody (callLLM outcome)

end Backend

/-- Modelled from the spec: the input of the Output Normalizer of spec
section 4.1, which is absent from `src/` (the repository ships no
`normalize` routine; the spec gives its contract and algorithm).  `raw` may
be absent, a plain string (the caller's JSON decode failed or was never
attempted), or an already-parsed value. -/
inductive Raw where
  | absent
  | text (s : String)
  | parsed (v : JValue)

/-- Render a field value into the composed output: a string directly, any
other value through its stringified form. -/
def renderVal : JValue → String
  | .jstr s => s
  | v => stringify v

/-- The named string field of a parsed value, empty when absent. -/
def fieldStr (v : JValue) (k : String) : String :=
  match jsGet v k with
  | some x => renderVal x
  | none => ""

/-- The named sequence field of a parsed value, empty unless an array. -/
def fieldList (v : JValue) (k : String) : List String :=
  match jsGet v k with
  | some (.jarr xs) => xs.map renderVal
  | _ => []

/-- Whether any of the keys is present on the value. -/
def hasAnyKey (v : JValue) (ks : List String) : Bool :=
  ks.any fun k => (jsGet v k).isSome

/-- The fields the spec's extraction rules read for each service identifier
(no rule reads a field for an unknown service). -/
def expectedKeys : String → List String
  | "summarize" => ["summary", "bullets"]
  | "email" => ["subject", "body"]
  | "explain-code" => ["summary", "steps", "complexity"]
  | "rewrite" => ["rewritten"]
  | _ => []

def joinSep (sep : String) : List String → String
  | [] => ""
  | [x] => x
  | x :: xs => x ++ sep ++ joinSep sep xs

/-- Each bullet prefixed with the bullet marker, one per line. -/
def bulletLines (bs : List String) : String :=
  joinSep "\n" (bs.map fun b => "• " ++ b)

/-- Steps numbered from `i`, contiguously. -/
def numberFrom (i : Nat) : List String → List String
  | [] => []
  | s :: ss => (toString i ++ ". " ++ s) :: numberFrom (i + 1) ss

/-- Modelled from the spec: the Output Normalizer
`normalize(raw, serviceId)` of spec section 4.1, which no file under `src/`
implements.  It follows the spec's algorithm: empty or absent raw gives the
empty string; a plain string passes through unchanged; a parsed value is
taken apart by the per-service field-extraction rules, composed, and the
final composed string (only) is trimmed; whenever the expected structure is
missing — or the service identifier is unknown — the whole value's
stringified dump is the result. -/
def normalize (raw : Raw) (serviceId : String) : String :=
  match raw with
  | .absent => ""
  | .text s => s
  | .parsed v =>
    if serviceId = "summarize" then
      if hasAnyKey v ["summary", "bullets"] then
        jsTrim (fieldStr v "summary" ++ "\n\n" ++ bulletLines (fieldList v "bullets"))
      else stringify v
    else if serviceId = "email" then
      if hasAnyKey v ["subject", "body"] then
        jsTrim ("Subject: " ++ fieldStr v "subject" ++ "\n\n" ++ fieldStr v "body")
      else stringify v
    else if serviceId = "explain-code" then
      if hasAnyKey v ["summary", "steps", "complexity"] then
        jsTrim (fieldStr v "summary" ++ "\n\n" ++
          joinSep "\n" (numberFrom 1 (fieldList v "steps")) ++ "\n\n" ++
          "Complexity: " ++ fieldStr v "complexity")
      else stringify v
    else if serviceId = "rewrite" then
      match jsGet v "rewritten" with
      | some x => renderVal x
      | none => stringify v
    else stringify v

/-! ### Theorems -/

/-- Slicing to a bound at least the length is the identity. -/
theorem jsSlice_eq_self (s : String) (n : Nat) (h : s.data.length ≤ n) :
    jsSlice s n = s := by
  unfold jsSlice
  rw [List.take_of_length_le h]

/-- C1: in the JSON-producing `callLLM` variant, whenever JSON decoding of
the fence-stripped text fails, the parse step hands the caller the original
raw text unchanged — not the fence-stripped and trimmed intermediate — and,
being a total function, lets no error propagate. -/
theorem parse_step_returns_raw_on_decode_failure (s : String)
    (h : jsonParse (fenceClean s) = none) :
    Frontend.parseLLMText s = .jstr s := by
  unfold Frontend.parseLLMText
  rw [h]

theorem parse_step_returns_raw_on_decode_failure_witness :
    jsonParse (fenceClean "```json\nnot valid\n```") = none ∧
    fenceClean "```json\nnot valid\n```" ≠ "```json\nnot valid\n```" ∧
    Frontend.parseLLMText "```json\nnot valid\n```" = .jstr "```json\nnot valid\n```" :=
  ⟨rfl, by decide, parse_step_returns_raw_on_decode_failure _ rfl⟩

/-- C2: `normalize` is a total function into strings (so it never raises
and always produces a string, for every raw input and service identifier);
a plain-string raw — the shape the caller passes when the upstream JSON
parse failed — comes back as that string, and a parsed value carrying none
of the fields its service expects falls back to the stringified dump of the
whole value. -/
theorem normalize_total_and_fallback (s : String) (v : JValue) (serviceId : String)
    (h : hasAnyKey v (expectedKeys serviceId) = false) :
    normalize (.text s) serviceId = s ∧
    normalize (.parsed v) serviceId = stringify v := by
  refine ⟨rfl, ?_⟩
  by_cases h1 : serviceId = "summarize"
  · subst h1
    simp only [expectedKeys] at h
    simp [normalize, h]
  by_cases h2 : serviceId = "email"
  · subst h2
    simp only [expectedKeys] at h
    simp [normalize, h]
  by_cases h3 : serviceId = "explain-code"
  · subst h3
    simp only [expectedKeys] at h
    simp [normalize, h]
  by_cases h4 : serviceId = "rewrite"
  · subst h4
    simp only [expectedKeys, hasAnyKey, List.any_cons, List.any_nil,
      Bool.or_false] at h
    cases hjv : jsGet v "rewritten" with
    | none => simp [normalize, hjv]
    | some x => rw [hjv] at h; simp at h
  · simp [normalize, h1, h2, h3, h4]

theorem normalize_total_and_fallback_witness :
    hasAnyKey (.jobj [("x", .jnull)]) (expectedKeys "summarize") = false ∧
    normalize (.text "raw text") "summarize" = "raw text" ∧
    normalize (.parsed (.jobj [("x", .jnull)])) "summarize" =
      stringify (.jobj [("x", .jnull)]) :=
  ⟨rfl, (normalize_total_and_fallback "raw text" (.jobj [("x", .jnull)]) "summarize" rfl).1,
    (normalize_total_and_fallback "raw text" (.jobj [("x", .jnull)]) "summarize" rfl).2⟩

/-- C3: well-formed structured responses compose exactly: the summarize
example gives the summary, a blank line and the bullets in their given
order, the email example gives the subject line, a blank line and the body,
and trimming touches only the ends of the final composed string (interior
whitespace of the fields survives). -/
theorem normalize_wellformed_examples :
    normalize (.parsed (.jobj [("summary", .jstr "ok"),
      ("bullets", .jarr [.jstr "a", .jstr "b"])])) "summarize" = "ok\n\n• a\n• b" ∧
    normalize (.parsed (.jobj [("subject", .jstr "Hi"),
      ("body", .jstr "Text")])) "email" = "Subject: Hi\n\nText" ∧
    normalize (.parsed (.jobj [("summary", .jstr "ok"),
      ("bullets", .jarr [.jstr "b", .jstr "a"])])) "summarize" = "ok\n\n• b\n• a" ∧
    normalize (.parsed (.jobj [("summary", .jstr " ok "),
      ("bullets", .jarr [.jstr " a "])])) "summarize" = "ok \n\n•  a" :=
  ⟨rfl, rfl, rfl, rfl⟩

/-- C4: an empty or absent raw response normalizes to the empty string, for
every service identifier. -/
theorem normalize_empty_raw (serviceId : String) :
    normalize .absent serviceId = "" ∧ normalize (.text "") serviceId = "" :=
  ⟨rfl, rfl⟩

/-- C5: on each of the four endpoints, a request body missing its required
field (text, details, code, and text or tone respectively) is answered with
the 400 error body, and the response is the same whatever the upstream call
would return — the handler returns before `callLLM` runs, so the upstream
is not contacted. -/
theorem missing_field_400_no_upstream (body : JValue) (u1 u2 : Backend.CallResult) :
    (jsGet (Backend.bodyOr body) "text" = none →
      Backend.apiSummarize body u1 =
        ⟨400, .jobj [("success", .jbool false), ("error", .jstr "text is required")]⟩ ∧
      Backend.apiSummarize body u1 = Backend.apiSummarize body u2) ∧
    (jsGet (Backend.bodyOr body) "details" = none →
      Backend.apiEmail body u1 =
        ⟨400, .jobj [("success", .jbool false), ("error", .jstr "details is required")]⟩ ∧
      Backend.apiEmail body u1 = Backend.apiEmail body u2) ∧
    (jsGet (Backend.bodyOr body) "code" = none →
      Backend.apiExplainCode body u1 =
        .ok ⟨400, .jobj [("success", .jbool false), ("error", .jstr "code is required")]⟩ ∧
      Backend.apiExplainCode body u1 = Backend.apiExplainCode body u2) ∧
    (jsGet (Backend.bodyOr body) "text" = none ∨ jsGet (Backend.bodyOr body) "tone" = none →
      Backend.apiRewrite body u1 =
        .ok ⟨400, .jobj [("success", .jbool false), ("error", .jstr "text and tone are required")]⟩ ∧
      Backend.apiRewrite body u1 = Backend.apiRewrite body u2) := by
  refine ⟨fun h => ?_, fun h => ?_, fun h => ?_, fun h => ?_⟩
  · exact ⟨by simp [Backend.apiSummarize, h, optTruthy],
      by simp [Backend.apiSummarize, h, optTruthy]⟩
  · exact ⟨by simp [Backend.apiEmail, h, optTruthy],
      by simp [Backend.apiEmail, h, optTruthy]⟩
  · exact ⟨by simp [Backend.apiExplainCode, h, optTruthy],
      by simp [Backend.apiExplainCode, h, optTruthy]⟩
  · rcases h with h | h
    · exact ⟨by simp [Backend.apiRewrite, h, optTruthy],
        by simp [Backend.apiRewrite, h, optTruthy]⟩
    · exact ⟨by simp [Backend.apiRewrite, h, optTruthy],
        by simp [Backend.apiRewrite, h, optTruthy]⟩

theorem missing_field_400_no_upstream_witness :
    Backend.apiSummarize (.jobj []) (.ok "out") =
      ⟨400, .jobj [("success", .jbool false), ("error", .jstr "text is required")]⟩ ∧
    Backend.apiEmail (.jobj []) (.ok "out") = Backend.apiEmail (.jobj []) (.err .jnull) ∧
    Backend.apiExplainCode (.jobj []) (.ok "out") =
      .ok ⟨400, .jobj [("success", .jbool false), ("error", .jstr "code is required")]⟩ ∧
    Backend.apiRewrite (.jobj []) (.ok "out") =
      .ok ⟨400, .jobj [("success", .jbool false), ("error", .jstr "text and tone are required")]⟩ :=
  ⟨((missing_field_400_no_upstream (.jobj []) (.ok "out") (.err .jnull)).1 rfl).1,
   ((missing_field_400_no_upstream (.jobj []) (.ok "out") (.err .jnull)).2.1 rfl).2,
   ((missing_field_400_no_upstream (.jobj []) (.ok "out") (.err .jnull)).2.2.1 rfl).1,
   ((missing_field_400_no_upstream (.jobj []) (.ok "out") (.err .jnull)).2.2.2 (Or.inl rfl)).1⟩

/-- C6: with the required fields present, a failed upstream call — an HTTP
failure or a network/timeout failure, the axios config bounding the call at
30000 ms — makes every endpoint answer HTTP 502 carrying success false, the
service name and the error value; the response is a function of the single
call outcome (there is no second call to retry). -/
theorem upstream_failure_502 (body : JValue) (st : Nat) (dta : JValue) (msg : String) :
    Backend.axiosTimeoutMs = 30000 ∧
    (optTruthy (jsGet (Backend.bodyOr body) "text") = true →
      Backend.apiSummarizeFull body (.httpFailure st dta) =
        ⟨502, .jobj [("success", .jbool false), ("service", .jstr "summarize"),
          ("error", .jobj [("status", .jnum (toString st)), ("data", dta)])]⟩ ∧
      Backend.apiSummarizeFull body (.networkFailure msg) =
        ⟨502, .jobj [("success", .jbool false), ("service", .jstr "summarize"),
          ("error", .jobj [("message", .jstr msg)])]⟩) ∧
    (optTruthy (jsGet (Backend.bodyOr body) "details") = true →
      Backend.apiEmailFull body (.httpFailure st dta) =
        ⟨502, .jobj [("success", .jbool false), ("service", .jstr "email"),
          ("error", .jobj [("status", .jnum (toString st)), ("data", dta)])]⟩ ∧
      Backend.apiEmailFull body (.networkFailure msg) =
        ⟨502, .jobj [("success", .jbool false), ("service", .jstr "email"),
          ("error", .jobj [("message", .jstr msg)])]⟩) ∧
    (optTruthy (jsGet (Backend.bodyOr body) "code") = true →
      Backend.apiExplainCodeFull body (.httpFailure st dta) =
        .ok ⟨502, .jobj [("success", .jbool false), ("service", .jstr "explain-code"),
          ("error", .jobj [("status", .jnum (toString st)), ("data", dta)])]⟩ ∧
      Backend.apiExplainCodeFull body (.networkFailure msg) =
        .ok ⟨502, .jobj [("success", .jbool false), ("service", .jstr "explain-code"),
          ("error", .jobj [("message", .jstr msg)])]⟩) ∧
    (optTruthy (jsGet (Backend.bodyOr body) "text") = true →
      optTruthy (jsGet (Backend.bodyOr body) "tone") = true →
      Backend.apiRewriteFull body (.httpFailure st dta) =
        .ok ⟨502, .jobj [("success", .jbool false), ("service", .jstr "rewrite"),
          ("error", .jobj [("status", .jnum (toString st)), ("data", dta)])]⟩ ∧
      Backend.apiRewriteFull body (.networkFailure msg) =
        .ok ⟨502, .jobj [("success", .jbool false), ("service", .jstr "rewrite"),
          ("error", .jobj [("message", .jstr msg)])]⟩) := by
  refine ⟨rfl, fun htext => ⟨?_, ?_⟩, fun hdetails => ⟨?_, ?_⟩,
    fun hcode => ⟨?_, ?_⟩, fun htext htone => ⟨?_, ?_⟩⟩ <;>
    simp [Backend.apiSummarizeFull, Backend.apiEmailFull, Backend.apiExplainCodeFull,
      Backend.apiRewriteFull, Backend.apiSummarize, Backend.apiEmail,
      Backend.apiExplainCode, Backend.apiRewrite, Backend.callLLM, *]

theorem upstream_failure_502_witness :
    Backend.apiSummarizeFull (.jobj [("text", .jstr "t")])
      (.networkFailure "timeout of 30000ms exceeded") =
      ⟨502, .jobj [("success", .jbool false), ("service", .jstr "summarize"),
        ("error", .jobj [("message", .jstr "timeout of 30000ms exceeded")])]⟩ ∧
    Backend.apiEmailFull (.jobj [("details", .jstr "d")]) (.httpFailure 500 .jnull) =
      ⟨502, .jobj [("success", .jbool false), ("service", .jstr "email"),
        ("error", .jobj [("status", .jnum (toString 500)), ("data", .jnull)])]⟩ ∧
    Backend.apiExplainCodeFull (.jobj [("code", .jstr "c")]) (.httpFailure 500 .jnull) =
      .ok ⟨502, .jobj [("success", .jbool false), ("service", .jstr "explain-code"),
        ("error", .jobj [("status", .jnum (toString 500)), ("data", .jnull)])]⟩ ∧
    Backend.apiRewriteFull (.jobj [("text", .jstr "t"), ("tone", .jstr "f")])
      (.networkFailure "timeout of 30000ms exceeded") =
      .ok ⟨502, .jobj [("success", .jbool false), ("service", .jstr "rewrite"),
        ("error", .jobj [("message", .jstr "timeout of 30000ms exceeded")])]⟩ :=
  ⟨((upstream_failure_502 (.jobj [("text", .jstr "t")]) 500 .jnull
      "timeout of 30000ms exceeded").2.1 rfl).2,
   ((upstream_failure_502 (.jobj [("details", .jstr "d")]) 500 .jnull
      "timeout of 30000ms exceeded").2.2.1 rfl).1,
   ((upstream_failure_502 (.jobj [("code", .jstr "c")]) 500 .jnull
      "timeout of 30000ms exceeded").2.2.2.1 rfl).1,
   ((upstream_failure_502 (.jobj [("text", .jstr "t"), ("tone", .jstr "f")]) 500 .jnull
      "timeout of 30000ms exceeded").2.2.2.2 rfl rfl).2⟩

/-- C7: with its required fields present (truthy) and the upstream call
succeeded, each endpoint answers status 200 with exactly the envelope of
success, service, input and output, the service field naming the endpoint
that was called. -/
theorem success_envelope (body : JValue) (d : String) :
    (∀ tv, jsGet (Backend.bodyOr body) "text" = some tv → jsTruthy tv = true →
      Backend.apiSummarize body (.ok d) =
        ⟨200, .jobj [("success", .jbool true), ("service", .jstr "summarize"),
          ("input", .jobj [("text", tv)]), ("output", .jstr d)]⟩) ∧
    (∀ rv tnv pv dv,
      jsGet (Backend.bodyOr body) "recipientRole" = some rv →
      jsGet (Backend.bodyOr body) "tone" = some tnv →
      jsGet (Backend.bodyOr body) "purpose" = some pv →
      jsGet (Backend.bodyOr body) "details" = some dv → jsTruthy dv = true →
      Backend.apiEmail body (.ok d) =
        ⟨200, .jobj [("success", .jbool true), ("service", .jstr "email"),
          ("input", .jobj [("recipientRole", rv), ("tone", tnv), ("purpose", pv),
            ("details", dv)]), ("output", .jstr d)]⟩) ∧
    (∀ s, jsGet (Backend.bodyOr body) "code" = some (.jstr s) → s.isEmpty = false →
      Backend.apiExplainCode body (.ok d) =
        .ok ⟨200, .jobj [("success", .jbool true), ("service", .jstr "explain-code"),
          ("input", .jobj [("code", .jstr (jsSlice s 500 ++
            (if s.data.length > 500 then "...[truncated]" else "")))]),
          ("output", .jstr d)]⟩) ∧
    (∀ s tnv, jsGet (Backend.bodyOr body) "text" = some (.jstr s) → s.isEmpty = false →
      jsGet (Backend.bodyOr body) "tone" = some tnv → jsTruthy tnv = true →
      Backend.apiRewrite body (.ok d) =
        .ok ⟨200, .jobj [("success", .jbool true), ("service", .jstr "rewrite"),
          ("input", .jobj [("tone", tnv), ("text", .jstr (jsSlice s 500))]),
          ("output", .jstr d)]⟩) := by
  refine ⟨?_, ?_, ?_, ?_⟩
  · intro tv h ht
    simp [Backend.apiSummarize, h, optTruthy, ht]
  · intro rv tnv pv dv h1 h2 h3 h4 ht
    simp [Backend.apiEmail, h1, h2, h3, h4, optTruthy, ht, Backend.dropAbsent]
  · intro s h hs
    simp [Backend.apiExplainCode, h, optTruthy, jsTruthy, hs]
  · intro s tnv h hs h2 ht
    simp [Backend.apiRewrite, h, h2, optTruthy, jsTruthy, hs]
    exact ht

theorem success_envelope_witness :
    Backend.apiSummarize (.jobj [("text", .jstr "hi")]) (.ok "done") =
      ⟨200, .jobj [("success", .jbool true), ("service", .jstr "summarize"),
        ("input", .jobj [("text", .jstr "hi")]), ("output", .jstr "done")]⟩ ∧
    Backend.apiEmail
      (.jobj [("recipientRole", .jstr "boss"), ("tone", .jstr "polite"),
        ("purpose", .jstr "ask"), ("details", .jstr "d")]) (.ok "done") =
      ⟨200, .jobj [("success", .jbool true), ("service", .jstr "email"),
        ("input", .jobj [("recipientRole", .jstr "boss"), ("tone", .jstr "polite"),
          ("purpose", .jstr "ask"), ("details", .jstr "d")]), ("output", .jstr "done")]⟩ ∧
    Backend.apiRewrite (.jobj [("text", .jstr "hey"), ("tone", .jstr "calm")]) (.ok "done") =
      .ok ⟨200, .jobj [("success", .jbool true), ("service", .jstr "rewrite"),
        ("input", .jobj [("tone", .jstr "calm"), ("text", .jstr (jsSlice "hey" 500))]),
        ("output", .jstr "done")]⟩ :=
  ⟨(success_envelope (.jobj [("text", .jstr "hi")]) "done").1 (.jstr "hi") rfl rfl,
   (success_envelope
      (.jobj [("recipientRole", .jstr "boss"), ("tone", .jstr "polite"),
        ("purpose", .jstr "ask"), ("details", .jstr "d")]) "done").2.1
      (.jstr "boss") (.jstr "polite") (.jstr "ask") (.jstr "d") rfl rfl rfl rfl rfl,
   (success_envelope (.jobj [("text", .jstr "hey"), ("tone", .jstr "calm")]) "done").2.2.2
      "hey" (.jstr "calm") rfl rfl rfl rfl⟩

/-- C8: a required field present but bound to the empty string is rejected
with the same 400 response as a missing one — the validation tests
truthiness, not presence. -/
theorem empty_string_field_400 (body : JValue) (u : Backend.CallResult) :
    (jsGet (Backend.bodyOr body) "text" = some (.jstr "") →
      Backend.apiSummarize body u =
        ⟨400, .jobj [("success", .jbool false), ("error", .jstr "text is required")]⟩ ∧
      Backend.apiSummarize body u = Backend.apiSummarize (.jobj []) u) ∧
    (jsGet (Backend.bodyOr body) "details" = some (.jstr "") →
      Backend.apiEmail body u =
        ⟨400, .jobj [("success", .jbool false), ("error", .jstr "details is required")]⟩ ∧
      Backend.apiEmail body u = Backend.apiEmail (.jobj []) u) ∧
    (jsGet (Backend.bodyOr body) "code" = some (.jstr "") →
      Backend.apiExplainCode body u =
        .ok ⟨400, .jobj [("success", .jbool false), ("error", .jstr "code is required")]⟩ ∧
      Backend.apiExplainCode body u = Backend.apiExplainCode (.jobj []) u) ∧
    (jsGet (Backend.bodyOr body) "text" = some (.jstr "") ∨
        jsGet (Backend.bodyOr body) "tone" = some (.jstr "") →
      Backend.apiRewrite body u =
        .ok ⟨400, .jobj [("success", .jbool false), ("error", .jstr "text and tone are required")]⟩ ∧
      Backend.apiRewrite body u = Backend.apiRewrite (.jobj []) u) := by
  refine ⟨fun h => ?_, fun h => ?_, fun h => ?_, fun h => ?_⟩
  · have h0 : optTruthy (jsGet (Backend.bodyOr body) "text") = false := by rw [h]; rfl
    have h1 : Backend.apiSummarize body u =
        ⟨400, .jobj [("success", .jbool false), ("error", .jstr "text is required")]⟩ := by
      simp [Backend.apiSummarize, h0]
    exact ⟨h1, h1.trans rfl⟩
  · have h0 : optTruthy (jsGet (Backend.bodyOr body) "details") = false := by rw [h]; rfl
    have h1 : Backend.apiEmail body u =
        ⟨400, .jobj [("success", .jbool false), ("error", .jstr "details is required")]⟩ := by
      simp [Backend.apiEmail, h0]
    exact ⟨h1, h1.trans rfl⟩
  · have h0 : optTruthy (jsGet (Backend.bodyOr body) "code") = false := by rw [h]; rfl
    have h1 : Backend.apiExplainCode body u =
        .ok ⟨400, .jobj [("success", .jbool false), ("error", .jstr "code is required")]⟩ := by
      simp [Backend.apiExplainCode, h0]
    exact ⟨h1, h1.trans rfl⟩
  · have h1 : Backend.apiRewrite body u =
        .ok ⟨400, .jobj [("success", .jbool false), ("error", .jstr "text and tone are required")]⟩ := by
      rcases h with h | h
      · have h0 : optTruthy (jsGet (Backend.bodyOr body) "text") = false := by rw [h]; rfl
        simp [Backend.apiRewrite, h0]
      · have h0 : optTruthy (jsGet (Backend.bodyOr body) "tone") = false := by rw [h]; rfl
        simp [Backend.apiRewrite, h0]
    exact ⟨h1, h1.trans rfl⟩

theorem empty_string_field_400_witness :
    Backend.apiSummarize (.jobj [("text", .jstr "")]) (.ok "out") =
      ⟨400, .jobj [("success", .jbool false), ("error", .jstr "text is required")]⟩ ∧
    Backend.apiSummarize (.jobj [("text", .jstr "")]) (.ok "out") =
      Backend.apiSummarize (.jobj []) (.ok "out") ∧
    Backend.apiRewrite (.jobj [("text", .jstr "hey"), ("tone", .jstr "")]) (.ok "out") =
      .ok ⟨400, .jobj [("success", .jbool false), ("error", .jstr "text and tone are required")]⟩ :=
  ⟨((empty_string_field_400 (.jobj [("text", .jstr "")]) (.ok "out")).1 rfl).1,
   ((empty_string_field_400 (.jobj [("text", .jstr "")]) (.ok "out")).1 rfl).2,
   ((empty_string_field_400 (.jobj [("text", .jstr "hey"), ("tone", .jstr "")])
      (.ok "out")).2.2.2 (Or.inr rfl)).1⟩

/-- C9: an upstream HTTP success whose body has no candidates — and equally
one whose first candidate lacks content, parts, a first part or a text —
makes both `callLLM` variants return ok with empty data (`''` on the
backend, the raw `''` on the frontend), never an error result. -/
theorem empty_candidates_ok (v : JValue)
    (hnull : isNullJ v = false) (hc : jsGet v "candidates" = none) :
    (Backend.callLLM (.success v) = .ok "" ∧
     Frontend.callLLM (.success v) = .ok (.jstr "")) ∧
    (Backend.callLLM (.success (.jobj [("candidates", .jarr [])])) = .ok "" ∧
     Frontend.callLLM (.success (.jobj [("candidates", .jarr [])])) = .ok (.jstr "")) ∧
    (Backend.callLLM (.success (.jobj [("candidates", .jarr [.jobj []])])) = .ok "" ∧
     Frontend.callLLM (.success (.jobj [("candidates", .jarr [.jobj []])])) = .ok (.jstr "")) ∧
    (Backend.callLLM (.success (.jobj [("candidates",
        .jarr [.jobj [("content", .jobj [])]])])) = .ok "" ∧
     Frontend.callLLM (.success (.jobj [("candidates",
        .jarr [.jobj [("content", .jobj [])]])])) = .ok (.jstr "")) ∧
    (Backend.callLLM (.success (.jobj [("candidates",
        .jarr [.jobj [("content", .jobj [("parts", .jarr [])])]])])) = .ok "" ∧
     Frontend.callLLM (.success (.jobj [("candidates",
        .jarr [.jobj [("content", .jobj [("parts", .jarr [])])]])])) = .ok (.jstr "")) ∧
    (Backend.callLLM (.success (.jobj [("candidates",
        .jarr [.jobj [("content", .jobj [("parts", .jarr [.jobj []])])]])])) = .ok "" ∧
     Frontend.callLLM (.success (.jobj [("candidates",
        .jarr [.jobj [("content", .jobj [("parts", .jarr [.jobj []])])]])])) = .ok (.jstr "")) := by
  refine ⟨⟨?_, ?_⟩, ⟨rfl, rfl⟩, ⟨rfl, rfl⟩, ⟨rfl, rfl⟩, ⟨rfl, rfl⟩, ⟨rfl, rfl⟩⟩
  · simp [Backend.callLLM, geminiTextV, hnull, hc]
    rfl
  · simp [Frontend.callLLM, geminiTextV, hnull, hc]
    rfl

theorem empty_candidates_ok_witness :
    isNullJ (.jobj [("other", .jbool true)]) = false ∧
    jsGet (.jobj [("other", .jbool true)]) "candidates" = none ∧
    Backend.callLLM (.success (.jobj [("other", .jbool true)])) = .ok "" ∧
    Frontend.callLLM (.success (.jobj [("other", .jbool true)])) = .ok (.jstr "") :=
  ⟨rfl, rfl,
    (empty_candidates_ok (.jobj [("other", .jbool true)]) rfl rfl).1.1,
    (empty_candidates_ok (.jobj [("other", .jbool true)]) rfl rfl).1.2⟩

/-- C10: the echoed input of the success envelope is endpoint specific:
explain-code echoes the first 500 characters of the code, appending the
truncation marker exactly when the code is longer than 500 characters;
rewrite echoes the first 500 characters of the text with no marker;
summarize and email echo their fields verbatim. -/
theorem input_echo_truncation (body : JValue) (d : String) :
    (∀ s, jsGet (Backend.bodyOr body) "code" = some (.jstr s) → s.isEmpty = false →
      (s.data.length ≤ 500 →
        Backend.apiExplainCode body (.ok d) =
          .ok ⟨200, .jobj [("success", .jbool true), ("service", .jstr "explain-code"),
            ("input", .jobj [("code", .jstr s)]), ("output", .jstr d)]⟩) ∧
      (500 < s.data.length →
        Backend.apiExplainCode body (.ok d) =
          .ok ⟨200, .jobj [("success", .jbool true), ("service", .jstr "explain-code"),
            ("input", .jobj [("code", .jstr (jsSlice s 500 ++ "...[truncated]"))]),
            ("output", .jstr d)]⟩)) ∧
    (∀ s tnv, jsGet (Backend.bodyOr body) "text" = some (.jstr s) → s.isEmpty = false →
      jsGet (Backend.bodyOr body) "tone" = some tnv → jsTruthy tnv = true →
      Backend.apiRewrite body (.ok d) =
        .ok ⟨200, .jobj [("success", .jbool true), ("service", .jstr "rewrite"),
          ("input", .jobj [("tone", tnv), ("text", .jstr (jsSlice s 500))]),
          ("output", .jstr d)]⟩ ∧
      (s.data.length ≤ 500 →
        Backend.apiRewrite body (.ok d) =
          .ok ⟨200, .jobj [("success", .jbool true), ("service", .jstr "rewrite"),
            ("input", .jobj [("tone", tnv), ("text", .jstr s)]),
            ("output", .jstr d)]⟩)) ∧
    (∀ tv, jsGet (Backend.bodyOr body) "text" = some tv → jsTruthy tv = true →
      Backend.apiSummarize body (.ok d) =
        ⟨200, .jobj [("success", .jbool true), ("service", .jstr "summarize"),
          ("input", .jobj [("text", tv)]), ("output", .jstr d)]⟩) ∧
    (∀ rv tnv pv dv,
      jsGet (Backend.bodyOr body) "recipientRole" = some rv →
      jsGet (Backend.bodyOr body) "tone" = some tnv →
      jsGet (Backend.bodyOr body) "purpose" = some pv →
      jsGet (Backend.bodyOr body) "details" = some dv → jsTruthy dv = true →
      Backend.apiEmail body (.ok d) =
        ⟨200, .jobj [("success", .jbool true), ("service", .jstr "email"),
          ("input", .jobj [("recipientRole", rv), ("tone", tnv), ("purpose", pv),
            ("details", dv)]), ("output", .jstr d)]⟩) := by
  refine ⟨?_, ?_, ?_, ?_⟩
  · intro s h hs
    constructor
    · intro hlen
      have hlen2 : s.length ≤ 500 := hlen
      have hno : (500 < s.length) = False := by simp; omega
      simp [Backend.apiExplainCode, h, optTruthy, jsTruthy, hs, hno,
        jsSlice_eq_self s 500 hlen]
    · intro hlen
      have hlen2 : 500 < s.length := hlen
      have hyes : (500 < s.length) = True := by simp; omega
      simp [Backend.apiExplainCode, h, optTruthy, jsTruthy, hs, hyes]
  · intro s tnv h hs h2 ht
    have base : Backend.apiRewrite body (.ok d) =
        .ok ⟨200, .jobj [("success", .jbool true), ("service", .jstr "rewrite"),
          ("input", .jobj [("tone", tnv), ("text", .jstr (jsSlice s 500))]),
          ("output", .jstr d)]⟩ := by
      simp [Backend.apiRewrite, h, h2, optTruthy, jsTruthy, hs]
      exact ht
    refine ⟨base, fun hlen => ?_⟩
    rw [base, jsSlice_eq_self s 500 hlen]
  · intro tv h ht
    simp [Backend.apiSummarize, h, optTruthy, ht]
  · intro rv tnv pv dv h1 h2 h3 h4 ht
    simp [Backend.apiEmail, h1, h2, h3, h4, optTruthy, ht, Backend.dropAbsent]

theorem input_echo_truncation_witness :
    Backend.apiExplainCode (.jobj [("code", .jstr "abc")]) (.ok "done") =
      .ok ⟨200, .jobj [("success", .jbool true), ("service", .jstr "explain-code"),
        ("input", .jobj [("code", .jstr "abc")]), ("output", .jstr "done")]⟩ ∧
    Backend.apiRewrite (.jobj [("text", .jstr "hello"), ("tone", .jstr "calm")]) (.ok "done") =
      .ok ⟨200, .jobj [("success", .jbool true), ("service", .jstr "rewrite"),
        ("input", .jobj [("tone", .jstr "calm"), ("text", .jstr "hello")]),
        ("output", .jstr "done")]⟩ :=
  ⟨(((input_echo_truncation (.jobj [("code", .jstr "abc")]) "done").1
      "abc" rfl rfl).1 (by decide)),
   (((input_echo_truncation (.jobj [("text", .jstr "hello"), ("tone", .jstr "calm")])
      "done").2.1 "hello" (.jstr "calm") rfl rfl rfl rfl).2 (by decide))⟩

end AIUtil
